import Mathlib

/-!
Shallow embedding of the APOPHIS servo-motor test firmware
(main source file and initializations.c).

Machine integers (uint32_t) are modelled as Nat with an explicit
`% 4294967296` wherever the C code performs arithmetic that can
overflow or underflow.  Hardware side effects (UART prints, PWM
pulse-width writes, GPIO writes, interrupt control) are modelled as an
event list returned alongside the new state.  Bytes received from the
UART are parameters of the handler rather than reads of hardware.
-/

/-- 2^32, the modulus of uint32_t arithmetic. -/
def U32 : Nat := 4294967296

/-- PWM output channel of servo 1 (PWM module 0 output 6, pin PK4).
The exact numeric value of the SERVO_1 macro is irrelevant to the
claims; only the identity of the channel matters. -/
def SERVO_1 : Nat := 6

/-- PWM output channel of servo 2 (PWM module 0 output 7, pin PK5). -/
def SERVO_2 : Nat := 7

/-- GPIO port of user LEDs 1 and 2 (macro value immaterial). -/
def LED_PORT1 : Nat := 1

/-- GPIO port of user LEDs 3 and 4 (macro value immaterial). -/
def LED_PORT2 : Nat := 2

/-- LED pin masks, one bit each (macro values immaterial). -/
def LED1_PIN : Nat := 1
def LED2_PIN : Nat := 2
def LED3_PIN : Nat := 4
def LED4_PIN : Nat := 8

/-- Button masks from the buttons driver header: left button is GPIO
pin 0, right button GPIO pin 1, ALL_BUTTONS their union. -/
def LEFT_BUTTON : Nat := 1
def RIGHT_BUTTON : Nat := 2
def ALL_BUTTONS : Nat := 3

/-- Observable hardware side effects of the firmware. -/
inductive Event where
  /-- A UARTprintf call: format string and the numeric arguments. -/
  | uartPrintf (fmt : String) (args : List Nat)
  /-- UARTCharPutNonBlocking of a received byte (echo). -/
  | uartEcho (c : Char)
  /-- UARTIntClear at the top of the console interrupt handler. -/
  | uartIntClear
  /-- PWMPulseWidthSet on a channel with a pulse width. -/
  | pwmSet (channel : Nat) (width : Nat)
  /-- GPIOPinWrite port pins value. -/
  | gpioWrite (port : Nat) (pins : Nat) (value : Nat)
  /-- IntMasterDisable during shutdown. -/
  | intMasterDisable
deriving DecidableEq, Repr

/-- The mutable global variables of the firmware that the core state
machines read or write. -/
structure SysState where
  /-- g_SysTickCount : uint32_t, counter inside the SysTick handler. -/
  sysTickCount : Nat
  /-- g_LED4On : bool, whether user LED 4 is currently on. -/
  led4On : Bool
  /-- g_CharConsole : char, last byte received from the PC. -/
  charConsole : Char
  /-- g_ConsoleFlag : bool, pending-command flag checked by main. -/
  consoleFlag : Bool
  /-- g_Quit : bool, end-of-program flag. -/
  quit : Bool
  /-- g_StartPosition : uint32_t, pulse width of the 2.5 percent duty. -/
  startPosition : Nat
  /-- g_EndPosition : uint32_t, pulse width of the 12.5 percent duty. -/
  endPosition : Nat
  /-- g_ui32AngleIncrement : uint32_t, pulse-width step of w and s. -/
  angleIncrement : Nat
  /-- g_ui32ServoAngle : uint32_t, current commanded pulse width. -/
  servoAngle : Nat
deriving DecidableEq, Repr

/-- TurnOnLED from the main source file: GPIO writes for LED 1-4, and
all LEDs in the default case. -/
def TurnOnLED (LEDNum : Nat) : List Event :=
  match LEDNum with
  | 1 => [Event.gpioWrite LED_PORT1 LED1_PIN LED1_PIN]
  | 2 => [Event.gpioWrite LED_PORT1 LED2_PIN LED2_PIN]
  | 3 => [Event.gpioWrite LED_PORT2 LED3_PIN LED3_PIN]
  | 4 => [Event.gpioWrite LED_PORT2 LED4_PIN LED4_PIN]
  | _ => [Event.gpioWrite LED_PORT1 (LED1_PIN ||| LED2_PIN) (LED1_PIN ||| LED2_PIN),
          Event.gpioWrite LED_PORT2 (LED3_PIN ||| LED4_PIN) (LED3_PIN ||| LED4_PIN)]

/-- TurnOffLED from the main source file. -/
def TurnOffLED (LEDNum : Nat) : List Event :=
  match LEDNum with
  | 1 => [Event.gpioWrite LED_PORT1 LED1_PIN 0]
  | 2 => [Event.gpioWrite LED_PORT1 LED2_PIN 0]
  | 3 => [Event.gpioWrite LED_PORT2 LED3_PIN 0]
  | 4 => [Event.gpioWrite LED_PORT2 LED4_PIN 0]
  | _ => [Event.gpioWrite LED_PORT1 (LED1_PIN ||| LED2_PIN) 0,
          Event.gpioWrite LED_PORT2 (LED3_PIN ||| LED4_PIN) 0]

/-- The switch statement of Menu (the command dispatcher), without the
trailing flag reset.  uint32_t addition and subtraction are modelled
modulo 2^32: x -= d on values below 2^32 is (x + (2^32 - d)) % 2^32. -/
def MenuCase (charReceived : Char) (s : SysState) : SysState × List Event :=
  match charReceived with
  | 'Q' => ({ s with quit := true }, [])
  | 'M' => (s,
      [Event.uartPrintf "Menu:\r\nM - Print this menu.\r\n" [],
       Event.uartPrintf "Q - Quit this program.\r\n" [],
       Event.uartPrintf "w - Increase servo angle (CW).\r\n" [],
       Event.uartPrintf "s - Decrease servo angle (CCW).\r\n" [],
       Event.uartPrintf "x - Reset the servo angle.\r\n" [],
       Event.uartPrintf "e - Set servo angle furthest CCW.\r\n" []])
  | 'w' =>
      let a := (s.servoAngle + s.angleIncrement) % U32
      ({ s with servoAngle := a },
       [Event.pwmSet SERVO_1 a, Event.pwmSet SERVO_2 a,
        Event.uartPrintf "Angle Increase: %d\r\n" [a]])
  | 's' =>
      let a := (s.servoAngle + (U32 - s.angleIncrement % U32)) % U32
      ({ s with servoAngle := a },
       [Event.pwmSet SERVO_1 a, Event.pwmSet SERVO_2 a,
        Event.uartPrintf "Angle Decrease: %d\r\n" [a]])
  | 'x' =>
      let a := s.startPosition
      ({ s with servoAngle := a },
       [Event.pwmSet SERVO_1 a, Event.pwmSet SERVO_2 a,
        Event.uartPrintf "Start Position: %d\r\n" [a]])
  | 'e' =>
      let a := s.endPosition
      ({ s with servoAngle := a },
       [Event.pwmSet SERVO_1 a, Event.pwmSet SERVO_2 a,
        Event.uartPrintf "End Position: %d\r\n" [a]])
  | _ => (s, [])

/-- Menu: run the switch, then execute the unconditional trailing
statement g_ConsoleFlag = false. -/
def Menu (charReceived : Char) (s : SysState) : SysState × List Event :=
  let r := MenuCase charReceived s
  ({ r.1 with consoleFlag := false }, r.2)

/-- SysTickIntHandler: if the counter has reached 5 flip LED 4 and
reset the counter, otherwise increment the counter (uint32_t). -/
def SysTickIntHandler (s : SysState) : SysState × List Event :=
  if s.sysTickCount ≥ 5 then
    if s.led4On then
      ({ s with led4On := false, sysTickCount := 0 }, TurnOffLED 4)
    else
      ({ s with led4On := true, sysTickCount := 0 }, TurnOnLED 4)
  else
    ({ s with sysTickCount := (s.sysTickCount + 1) % U32 }, [])

/-- ConsoleIntHandler: clear the UART interrupt, store the received
byte into g_CharConsole, echo it, and call Menu on it.  The byte read
by UARTCharGetNonBlocking is the parameter. -/
def ConsoleIntHandler (received : Char) (s : SysState) : SysState × List Event :=
  let s1 := { s with charConsole := received }
  let r := Menu received s1
  (r.1, Event.uartIntClear :: Event.uartEcho received :: r.2)

/-- The busy-poll loop body of WaitForButtonPress: while the current
value differs from the mask, poll again and AND the result with the
mask.  The list holds the successive ButtonsPoll results; the returned
value is the raw (unmasked) result of the poll at which the loop
exits, none if the polls run out first (the C code would still be
spinning). -/
def waitAux (mask : Nat) (actual : Nat) (lastRaw : Nat) : List Nat → Option Nat
  | [] => if actual = mask then some lastRaw else none
  | p :: rest =>
      if actual = mask then some lastRaw
      else waitAux mask (p &&& mask) p rest

/-- WaitForButtonPress: one initial unmasked ButtonsPoll, then one of
three masked busy-poll loops selected by the requested button state;
an unrecognized request returns right after the initial poll. -/
def WaitForButtonPress (desiredButtonState : Nat) (polls : List Nat) : Option Nat :=
  match polls with
  | [] => none
  | p0 :: rest =>
      if desiredButtonState = LEFT_BUTTON then waitAux LEFT_BUTTON p0 p0 rest
      else if desiredButtonState = RIGHT_BUTTON then waitAux RIGHT_BUTTON p0 p0 rest
      else if desiredButtonState = ALL_BUTTONS then waitAux ALL_BUTTONS p0 p0 rest
      else some p0

/-- g_StartPosition as computed in main from the period P returned by
InitServoMtrs: (uint32_t)(P * 0.025).  For every P below 2^32 the
double product P * 0.025 lies strictly between the integers bounding
P/40 when 40 does not divide P, and rounds to a value in
[P/40, P/40 + 1) when it does (the rounding error is at most 3e-8
while the distance to the next integer is at least 1/40), so the
truncation equals the integer quotient P / 40. -/
def g_StartPosition (P : Nat) : Nat := P / 40

/-- g_EndPosition as computed in main: g_StartPosition * 5. -/
def g_EndPosition (P : Nat) : Nat := g_StartPosition P * 5

/-- g_ui32AngleIncrement as computed in main:
(g_EndPosition - g_StartPosition) / 100 in uint32_t arithmetic
(no underflow since g_EndPosition >= g_StartPosition). -/
def g_ui32AngleIncrement (P : Nat) : Nat :=
  (g_EndPosition P - g_StartPosition P) / 100

/-- Iterate the SysTick interrupt handler n times (state part). -/
def sysTickN : Nat → SysState → SysState
  | 0, s => s
  | n + 1, s => sysTickN n (SysTickIntHandler s).1

/-- Dispatch the same character through Menu n times (state part). -/
def menuIter (c : Char) : Nat → SysState → SysState
  | 0, s => s
  | n + 1, s => menuIter c n (Menu c s).1

/-- One iteration of the main event loop body: if the console flag is
set, dispatch the pending character through Menu. -/
def mainLoopStep (s : SysState) : SysState :=
  if s.consoleFlag then (Menu s.charConsole s).1 else s

/-- The main event loop, fuelled: while not g_Quit, run the body. -/
def mainLoopRun : Nat → SysState → SysState
  | 0, s => s
  | n + 1, s => if s.quit then s else mainLoopRun n (mainLoopStep s)

/-- The shutdown sequence after the main loop exits: Menu of a
synthetic x, the farewell print, TurnOffLED 5, IntMasterDisable. -/
def mainShutdown (s : SysState) : SysState × List Event :=
  let r := Menu 'x' s
  (r.1, r.2 ++ (Event.uartPrintf "Dave, I\x27m scared. Will I dream?\r\n" []
                :: (TurnOffLED 5 ++ [Event.intMasterDisable])))

/-- Recognizer of the shutdown farewell print among the events. -/
def isShutdownPrint : Event → Bool
  | Event.uartPrintf f _ => f == "Dave, I\x27m scared. Will I dream?\r\n"
  | _ => false

/-- A concrete state for witnesses: the servo range arising from a
120 MHz clock (period 37500), angle at the start position. -/
def testState : SysState :=
  { sysTickCount := 0, led4On := false, charConsole := 'M',
    consoleFlag := true, quit := false, startPosition := 937,
    endPosition := 4685, angleIncrement := 37, servoAngle := 937 }

/-- A concrete state whose step exceeds the current angle, for the
underflow witness. -/
def wrapState : SysState :=
  { sysTickCount := 0, led4On := false, charConsole := 'M',
    consoleFlag := false, quit := false, startPosition := 10,
    endPosition := 50, angleIncrement := 50, servoAngle := 10 }

/-! Equation lemmas for Menu at each recognized character. -/

theorem Menu_Q (s : SysState) :
    Menu 'Q' s = ({ s with quit := true, consoleFlag := false }, []) := rfl

theorem Menu_M (s : SysState) :
    Menu 'M' s = ({ s with consoleFlag := false },
      [Event.uartPrintf "Menu:\r\nM - Print this menu.\r\n" [],
       Event.uartPrintf "Q - Quit this program.\r\n" [],
       Event.uartPrintf "w - Increase servo angle (CW).\r\n" [],
       Event.uartPrintf "s - Decrease servo angle (CCW).\r\n" [],
       Event.uartPrintf "x - Reset the servo angle.\r\n" [],
       Event.uartPrintf "e - Set servo angle furthest CCW.\r\n" []]) := rfl

theorem Menu_w (s : SysState) :
    Menu 'w' s =
      ({ s with servoAngle := (s.servoAngle + s.angleIncrement) % U32,
                consoleFlag := false },
       [Event.pwmSet SERVO_1 ((s.servoAngle + s.angleIncrement) % U32),
        Event.pwmSet SERVO_2 ((s.servoAngle + s.angleIncrement) % U32),
        Event.uartPrintf "Angle Increase: %d\r\n"
          [(s.servoAngle + s.angleIncrement) % U32]]) := rfl

theorem Menu_s (s : SysState) :
    Menu 's' s =
      ({ s with servoAngle := (s.servoAngle + (U32 - s.angleIncrement % U32)) % U32,
                consoleFlag := false },
       [Event.pwmSet SERVO_1 ((s.servoAngle + (U32 - s.angleIncrement % U32)) % U32),
        Event.pwmSet SERVO_2 ((s.servoAngle + (U32 - s.angleIncrement % U32)) % U32),
        Event.uartPrintf "Angle Decrease: %d\r\n"
          [(s.servoAngle + (U32 - s.angleIncrement % U32)) % U32]]) := rfl

theorem Menu_x (s : SysState) :
    Menu 'x' s =
      ({ s with servoAngle := s.startPosition, consoleFlag := false },
       [Event.pwmSet SERVO_1 s.startPosition,
        Event.pwmSet SERVO_2 s.startPosition,
        Event.uartPrintf "Start Position: %d\r\n" [s.startPosition]]) := rfl

theorem Menu_e (s : SysState) :
    Menu 'e' s =
      ({ s with servoAngle := s.endPosition, consoleFlag := false },
       [Event.pwmSet SERVO_1 s.endPosition,
        Event.pwmSet SERVO_2 s.endPosition,
        Event.uartPrintf "End Position: %d\r\n" [s.endPosition]]) := rfl

theorem Menu_default (c : Char) (s : SysState)
    (hM : c ≠ 'M') (hQ : c ≠ 'Q') (hw : c ≠ 'w') (hs : c ≠ 's')
    (hx : c ≠ 'x') (he : c ≠ 'e') :
    Menu c s = ({ s with consoleFlag := false }, []) := by
  unfold Menu MenuCase
  split <;> simp_all

/-- C1: the command dispatcher transition table.  M prints the menu
and changes no servo or program state; Q sets quit; w and s add or
subtract the step (uint32_t arithmetic) and push the value to both PWM
channels; x and e load the start and end positions and push them; any
other character changes nothing and produces no output; every case
clears the pending-command flag. -/
theorem menu_dispatch_table (s : SysState) :
    (Menu 'M' s).1 = { s with consoleFlag := false } ∧
    (Menu 'M' s).2 =
      [Event.uartPrintf "Menu:\r\nM - Print this menu.\r\n" [],
       Event.uartPrintf "Q - Quit this program.\r\n" [],
       Event.uartPrintf "w - Increase servo angle (CW).\r\n" [],
       Event.uartPrintf "s - Decrease servo angle (CCW).\r\n" [],
       Event.uartPrintf "x - Reset the servo angle.\r\n" [],
       Event.uartPrintf "e - Set servo angle furthest CCW.\r\n" []] ∧
    Menu 'Q' s = ({ s with quit := true, consoleFlag := false }, []) ∧
    Menu 'w' s =
      ({ s with servoAngle := (s.servoAngle + s.angleIncrement) % U32,
                consoleFlag := false },
       [Event.pwmSet SERVO_1 ((s.servoAngle + s.angleIncrement) % U32),
        Event.pwmSet SERVO_2 ((s.servoAngle + s.angleIncrement) % U32),
        Event.uartPrintf "Angle Increase: %d\r\n"
          [(s.servoAngle + s.angleIncrement) % U32]]) ∧
    Menu 's' s =
      ({ s with servoAngle := (s.servoAngle + (U32 - s.angleIncrement % U32)) % U32,
                consoleFlag := false },
       [Event.pwmSet SERVO_1 ((s.servoAngle + (U32 - s.angleIncrement % U32)) % U32),
        Event.pwmSet SERVO_2 ((s.servoAngle + (U32 - s.angleIncrement % U32)) % U32),
        Event.uartPrintf "Angle Decrease: %d\r\n"
          [(s.servoAngle + (U32 - s.angleIncrement % U32)) % U32]]) ∧
    Menu 'x' s =
      ({ s with servoAngle := s.startPosition, consoleFlag := false },
       [Event.pwmSet SERVO_1 s.startPosition,
        Event.pwmSet SERVO_2 s.startPosition,
        Event.uartPrintf "Start Position: %d\r\n" [s.startPosition]]) ∧
    Menu 'e' s =
      ({ s with servoAngle := s.endPosition, consoleFlag := false },
       [Event.pwmSet SERVO_1 s.endPosition,
        Event.pwmSet SERVO_2 s.endPosition,
        Event.uartPrintf "End Position: %d\r\n" [s.endPosition]]) ∧
    (∀ c : Char, c ≠ 'M' → c ≠ 'Q' → c ≠ 'w' → c ≠ 's' → c ≠ 'x' → c ≠ 'e' →
      Menu c s = ({ s with consoleFlag := false }, [])) := by
  refine ⟨rfl, rfl, rfl, rfl, rfl, rfl, rfl, ?_⟩
  intro c hM hQ hw hs hx he
  exact Menu_default c s hM hQ hw hs hx he

/-- Witness for C1 at a concrete state and the unrecognized byte z. -/
theorem menu_dispatch_table_witness :
    Menu 'z' testState = ({ testState with consoleFlag := false }, []) :=
  (menu_dispatch_table testState).2.2.2.2.2.2.2 'z' (by decide) (by decide)
    (by decide) (by decide) (by decide) (by decide)

/-- C7: the absolute-position commands are idempotent.  From any
state, dispatching x leaves the angle at the start position after one
and after two dispatches, and likewise e for the end position. -/
theorem xe_idempotent (s : SysState) :
    ((Menu 'x' s).1.servoAngle = s.startPosition ∧
     (Menu 'x' (Menu 'x' s).1).1.servoAngle = s.startPosition) ∧
    ((Menu 'e' s).1.servoAngle = s.endPosition ∧
     (Menu 'e' (Menu 'e' s).1).1.servoAngle = s.endPosition) := by
  refine ⟨⟨rfl, rfl⟩, ⟨rfl, rfl⟩⟩

/-- C10: frame conditions.  The SysTick handler changes only the tick
counter and the LED-4 indicator, leaving the servo angle, quit flag,
console inbox and servo range unchanged; conversely, Menu on any
character leaves the tick counter and the indicator unchanged. -/
theorem tick_menu_frame (s : SysState) :
    ((SysTickIntHandler s).1.servoAngle = s.servoAngle ∧
     (SysTickIntHandler s).1.quit = s.quit ∧
     (SysTickIntHandler s).1.charConsole = s.charConsole ∧
     (SysTickIntHandler s).1.consoleFlag = s.consoleFlag ∧
     (SysTickIntHandler s).1.startPosition = s.startPosition ∧
     (SysTickIntHandler s).1.endPosition = s.endPosition ∧
     (SysTickIntHandler s).1.angleIncrement = s.angleIncrement) ∧
    (∀ c : Char,
      (Menu c s).1.sysTickCount = s.sysTickCount ∧
      (Menu c s).1.led4On = s.led4On) := by
  constructor
  · unfold SysTickIntHandler
    split
    · split <;> exact ⟨rfl, rfl, rfl, rfl, rfl, rfl, rfl⟩
    · exact ⟨rfl, rfl, rfl, rfl, rfl, rfl, rfl⟩
  · intro c
    unfold Menu MenuCase
    split <;> exact ⟨rfl, rfl⟩

/-- C2 counterexample: the claim asserts a positive step for every
period P of at least 40, but at P = 40 the computed step is
(5 - 1) / 100 = 0. -/
theorem servo_range_step_pos_fails_at_40 :
    ¬ (∀ P : Nat, 40 ≤ P → 0 < g_ui32AngleIncrement P) := by
  intro h
  exact absurd (h 40 (by decide)) (by decide)

/-- C2 amended: for every PWM period P, the start pulse is the floor
of P * 0.025, the end pulse is five times the start pulse, the step is
their difference divided by 100 (integer division), and the step is
positive whenever P is at least 1000 (not 40: the step equals
4 * (P / 40) / 100, which first becomes positive at P = 1000). -/
theorem servo_range_arith (P : Nat) :
    g_StartPosition P = ⌊(P : ℚ) * (25 / 1000)⌋₊ ∧
    g_EndPosition P = g_StartPosition P * 5 ∧
    g_ui32AngleIncrement P = (g_EndPosition P - g_StartPosition P) / 100 ∧
    (1000 ≤ P → 0 < g_ui32AngleIncrement P) := by
  refine ⟨?_, rfl, rfl, ?_⟩
  · have h : (P : ℚ) * (25 / 1000) = (P : ℚ) / (40 : ℕ) := by
      push_cast
      ring
    rw [h, Nat.floor_div_nat, Nat.floor_natCast]
    rfl
  · intro h
    unfold g_ui32AngleIncrement g_EndPosition g_StartPosition
    omega

/-- Witness for C2 at the first period with a positive step. -/
theorem servo_range_arith_witness : 0 < g_ui32AngleIncrement 1000 :=
  (servo_range_arith 1000).2.2.2 (by decide)

/-- C3 counterexample: starting from a zero counter, the indicator has
not flipped after any of the first five ticks; it first flips on the
sixth tick, so the flip period is 6 ticks, not 5. -/
theorem heartbeat_no_flip_at_five :
    ((sysTickN 1 testState).led4On = testState.led4On ∧
     (sysTickN 2 testState).led4On = testState.led4On ∧
     (sysTickN 3 testState).led4On = testState.led4On ∧
     (sysTickN 4 testState).led4On = testState.led4On ∧
     (sysTickN 5 testState).led4On = testState.led4On) ∧
    (sysTickN 6 testState).led4On = !testState.led4On := by decide

/-- C3 amended: from a zero counter the indicator flips exactly once
every 6 ticks.  The handler increments the counter on each of the
first five ticks without flipping; on the sixth tick (the counter
having reached the threshold 5) it flips the indicator and resets the
counter to zero. -/
theorem heartbeat_flips_every_six (s : SysState) (h : s.sysTickCount = 0) :
    (∀ k, k ≤ 5 →
      (sysTickN k s).led4On = s.led4On ∧ (sysTickN k s).sysTickCount = k) ∧
    sysTickN 6 s = { s with led4On := !s.led4On, sysTickCount := 0 } := by
  constructor
  · intro k hk
    interval_cases k <;>
      simp [sysTickN, SysTickIntHandler, h, U32]
  · cases hb : s.led4On <;>
      simp [sysTickN, SysTickIntHandler, h, hb, U32]

/-- Witness for C3 at the concrete test state. -/
theorem heartbeat_flips_witness :
    ((sysTickN 5 testState).led4On = testState.led4On ∧
     (sysTickN 5 testState).sysTickCount = 5) ∧
    sysTickN 6 testState =
      { testState with led4On := !testState.led4On, sysTickCount := 0 } :=
  ⟨(heartbeat_flips_every_six testState rfl).1 5 (by decide),
   (heartbeat_flips_every_six testState rfl).2⟩

/-- C4 counterexample: after the console interrupt handler runs, the
pending flag is not true — the handler never raises g_ConsoleFlag, and
the Menu call it makes clears the flag. -/
theorem console_flag_not_raised :
    ¬ ((ConsoleIntHandler 'w' testState).1.consoleFlag = true) := by decide

/-- C4 amended: after every execution of the console receive
interrupt handler, the inbox holds the just-received byte, the byte
has already been dispatched synchronously through Menu from the
handler itself, and g_ConsoleFlag is false — it is never raised, so
the main loop never observes a pending byte through the flag. -/
theorem console_handler_dispatches (c : Char) (s : SysState) :
    (ConsoleIntHandler c s).1.charConsole = c ∧
    (ConsoleIntHandler c s).1.consoleFlag = false ∧
    (ConsoleIntHandler c s).1 = (Menu c { s with charConsole := c }).1 ∧
    (ConsoleIntHandler c s).2 =
      Event.uartIntClear :: Event.uartEcho c ::
        (Menu c { s with charConsole := c }).2 := by
  refine ⟨?_, rfl, rfl, rfl⟩
  unfold ConsoleIntHandler Menu MenuCase
  split <;> rfl

/-! Branch equations of WaitForButtonPress. -/

theorem WFBP_left (p0 : Nat) (rest : List Nat) :
    WaitForButtonPress LEFT_BUTTON (p0 :: rest) = waitAux LEFT_BUTTON p0 p0 rest := rfl

theorem WFBP_right (p0 : Nat) (rest : List Nat) :
    WaitForButtonPress RIGHT_BUTTON (p0 :: rest) = waitAux RIGHT_BUTTON p0 p0 rest := rfl

theorem WFBP_all (p0 : Nat) (rest : List Nat) :
    WaitForButtonPress ALL_BUTTONS (p0 :: rest) = waitAux ALL_BUTTONS p0 p0 rest := rfl

/-- Invariant of the busy-poll loop: provided the raw value recorded
for the current masked value satisfies the mask whenever the loop is
about to exit, the raw value at the returning poll has all bits of the
mask set. -/
theorem waitAux_land (mask : Nat) (polls : List Nat) :
    ∀ actual lastRaw r : Nat,
      (actual = mask → lastRaw &&& mask = mask) →
      waitAux mask actual lastRaw polls = some r → r &&& mask = mask := by
  induction polls with
  | nil =>
      intro actual lastRaw r hinv h
      unfold waitAux at h
      split at h
      · next ha =>
          injection h with h2
          subst h2
          exact hinv ha
      · exact absurd h (by simp)
  | cons p rest ih =>
      intro actual lastRaw r hinv h
      unfold waitAux at h
      split at h
      · next ha =>
          injection h with h2
          subst h2
          exact hinv ha
      · exact ih (p &&& mask) p r (fun hpm => hpm) h

/-- C5 counterexample: requesting the left button with poll sequence
[0, 3] (nothing pressed, then both buttons pressed) returns at the
poll whose stable state is 3 = LEFT | RIGHT, which is not exactly
LEFT_BUTTON: the loop masks each poll with the requested mask before
comparing, so a simultaneous right press is ignored. -/
theorem wait_button_exact_fails :
    ¬ (∀ (polls : List Nat) (r : Nat),
        WaitForButtonPress LEFT_BUTTON polls = some r → r = LEFT_BUTTON) := by
  intro h
  exact absurd (h [0, 3] 3 (by decide)) (by decide)

/-- C5 amended: for any of the three recognized requests,
WaitForButtonPress returns only at a poll whose stable state contains
every requested button (raw AND mask = mask).  Exact equality with the
request holds only for the very first poll; later polls are masked, so
extra pressed buttons do not prevent the return. -/
theorem wait_button_masked (d : Nat) (polls : List Nat) (r : Nat)
    (hd : d = LEFT_BUTTON ∨ d = RIGHT_BUTTON ∨ d = ALL_BUTTONS)
    (h : WaitForButtonPress d polls = some r) :
    r &&& d = d := by
  match polls with
  | [] => simp [WaitForButtonPress] at h
  | p0 :: rest =>
      rcases hd with rfl | rfl | rfl
      · rw [WFBP_left] at h
        exact waitAux_land LEFT_BUTTON rest p0 p0 r
          (fun hp => by rw [hp]; decide) h
      · rw [WFBP_right] at h
        exact waitAux_land RIGHT_BUTTON rest p0 p0 r
          (fun hp => by rw [hp]; decide) h
      · rw [WFBP_all] at h
        exact waitAux_land ALL_BUTTONS rest p0 p0 r
          (fun hp => by rw [hp]; decide) h

/-- Witness for C5: the same scenario as the counterexample satisfies
the amended masked condition. -/
theorem wait_button_masked_witness : (3 : Nat) &&& LEFT_BUTTON = LEFT_BUTTON :=
  wait_button_masked LEFT_BUTTON [0, 3] 3 (Or.inl rfl) (by decide)

/-- The angle after n dispatches of w, as uint32_t arithmetic. -/
theorem menuIter_w_angle (n : Nat) :
    ∀ s : SysState, s.servoAngle < U32 →
      (menuIter 'w' n s).servoAngle =
        (s.servoAngle + n * s.angleIncrement) % U32 := by
  induction n with
  | zero =>
      intro s h
      simp [menuIter, Nat.mod_eq_of_lt h]
  | succ n ih =>
      intro s h
      have hlt : (s.servoAngle + s.angleIncrement) % U32 < U32 :=
        Nat.mod_lt _ (by norm_num [U32])
      have hstep : menuIter 'w' (n + 1) s = menuIter 'w' n (Menu 'w' s).1 := rfl
      rw [hstep, Menu_w]
      rw [ih _ (by simpa using hlt)]
      simp only [Nat.mod_add_mod]
      ring_nf

/-- C6: dispatching w N times from the start position yields
start + N * step with no clamping at the end position; stated first in
uint32_t (mod 2^32) form, then exactly as the claim under the side
condition that the sum does not overflow 32 bits. -/
theorem w_additive_law (n : Nat) (s : SysState)
    (h0 : s.servoAngle = s.startPosition) (hlt : s.startPosition < U32) :
    (menuIter 'w' n s).servoAngle =
      (s.startPosition + n * s.angleIncrement) % U32 ∧
    (s.startPosition + n * s.angleIncrement < U32 →
      (menuIter 'w' n s).servoAngle =
        s.startPosition + n * s.angleIncrement) := by
  have h1 := menuIter_w_angle n s (by rw [h0]; exact hlt)
  rw [h0] at h1
  exact ⟨h1, fun hs => by rw [h1, Nat.mod_eq_of_lt hs]⟩

/-- Witness for C6: five w dispatches from the concrete test state
(the end-to-end scenario A of the spec). -/
theorem w_additive_law_witness :
    (menuIter 'w' 5 testState).servoAngle =
      testState.startPosition + 5 * testState.angleIncrement :=
  (w_additive_law 5 testState rfl (by decide)).2 (by decide)

/-- C9: because the angle is uint32_t, dispatching s when the current
angle is below the step wraps modulo 2^32: the new angle is
current - step + 2^32 (stated in Nat and in Int form), and that
wrapped value is pushed to both PWM channels. -/
theorem s_underflow_wraps (s : SysState) (ha : s.servoAngle < U32)
    (hi : s.angleIncrement < U32) (h : s.servoAngle < s.angleIncrement) :
    (Menu 's' s).1.servoAngle = s.servoAngle + U32 - s.angleIncrement ∧
    ((Menu 's' s).1.servoAngle : ℤ) =
      (s.servoAngle : ℤ) - (s.angleIncrement : ℤ) + 2 ^ 32 ∧
    (Menu 's' s).2 =
      [Event.pwmSet SERVO_1 (s.servoAngle + U32 - s.angleIncrement),
       Event.pwmSet SERVO_2 (s.servoAngle + U32 - s.angleIncrement),
       Event.uartPrintf "Angle Decrease: %d\r\n"
         [s.servoAngle + U32 - s.angleIncrement]] := by
  have key : (s.servoAngle + (U32 - s.angleIncrement % U32)) % U32
      = s.servoAngle + U32 - s.angleIncrement := by
    rw [Nat.mod_eq_of_lt hi]
    have hlt : s.servoAngle + (U32 - s.angleIncrement) < U32 := by omega
    rw [Nat.mod_eq_of_lt hlt]
    omega
  have h1 : (Menu 's' s).1.servoAngle
      = s.servoAngle + U32 - s.angleIncrement := by
    rw [Menu_s]
    exact key
  refine ⟨h1, ?_, ?_⟩
  · rw [h1]
    have hp : (2 : ℤ) ^ 32 = 4294967296 := by norm_num
    rw [hp]
    simp only [U32] at *
    omega
  · rw [Menu_s, key]

/-- Witness for C9: one s from a state at the start position whose
step exceeds it. -/
theorem s_underflow_wraps_witness :
    (Menu 's' wrapState).1.servoAngle =
      wrapState.servoAngle + U32 - wrapState.angleIncrement :=
  (s_underflow_wraps wrapState (by decide) (by decide) (by decide)).1

/-! Helper lemmas on quit preservation and the main loop. -/

theorem Menu_quit_mono (c : Char) (s : SysState) (hq : s.quit = true) :
    (Menu c s).1.quit = true := by
  unfold Menu MenuCase
  split <;> simp [hq]

theorem SysTick_quit_eq (s : SysState) :
    (SysTickIntHandler s).1.quit = s.quit := by
  unfold SysTickIntHandler
  split
  · split <;> rfl
  · rfl

theorem ConsoleIntHandler_quit_mono (c : Char) (s : SysState)
    (hq : s.quit = true) : (ConsoleIntHandler c s).1.quit = true :=
  Menu_quit_mono c { s with charConsole := c } hq

theorem mainLoopRun_quit (n : Nat) (s : SysState) (hq : s.quit = true) :
    mainLoopRun n s = s := by
  cases n <;> simp [mainLoopRun, hq]

/-! Pointwise values of the shutdown-print recognizer. -/

theorem isShutdownPrint_pwm (ch w : Nat) :
    isShutdownPrint (Event.pwmSet ch w) = false := rfl

theorem isShutdownPrint_gpio (p q v : Nat) :
    isShutdownPrint (Event.gpioWrite p q v) = false := rfl

theorem isShutdownPrint_imd : isShutdownPrint Event.intMasterDisable = false := rfl

theorem isShutdownPrint_start (a : List Nat) :
    isShutdownPrint (Event.uartPrintf "Start Position: %d\r\n" a) = false := rfl

theorem isShutdownPrint_farewell :
    isShutdownPrint
      (Event.uartPrintf "Dave, I\x27m scared. Will I dream?\r\n" []) = true := by
  decide

/-- C8: once Q is dispatched the quit flag is set, the main loop exits
without further work, the shutdown sequence issues a synthetic x that
resets the angle to the start position, prints the shutdown message
exactly once, then turns the LEDs off and disables interrupts (the
exact event sequence is given); and no operation of the program ever
resets quit to false. -/
theorem quit_shutdown (s : SysState) :
    (Menu 'Q' s).1.quit = true ∧
    (∀ n, mainLoopRun n (Menu 'Q' s).1 = (Menu 'Q' s).1) ∧
    (mainShutdown (Menu 'Q' s).1).1.servoAngle = s.startPosition ∧
    (mainShutdown (Menu 'Q' s).1).1.quit = true ∧
    List.countP isShutdownPrint (mainShutdown (Menu 'Q' s).1).2 = 1 ∧
    (mainShutdown (Menu 'Q' s).1).2 =
      [Event.pwmSet SERVO_1 s.startPosition,
       Event.pwmSet SERVO_2 s.startPosition,
       Event.uartPrintf "Start Position: %d\r\n" [s.startPosition],
       Event.uartPrintf "Dave, I\x27m scared. Will I dream?\r\n" [],
       Event.gpioWrite LED_PORT1 (LED1_PIN ||| LED2_PIN) 0,
       Event.gpioWrite LED_PORT2 (LED3_PIN ||| LED4_PIN) 0,
       Event.intMasterDisable] ∧
    (∀ (c : Char) (t : SysState), t.quit = true → (Menu c t).1.quit = true) ∧
    (∀ t : SysState, (SysTickIntHandler t).1.quit = t.quit) ∧
    (∀ (c : Char) (t : SysState), t.quit = true →
      (ConsoleIntHandler c t).1.quit = true) := by
  have hev : (mainShutdown (Menu 'Q' s).1).2 =
      [Event.pwmSet SERVO_1 s.startPosition,
       Event.pwmSet SERVO_2 s.startPosition,
       Event.uartPrintf "Start Position: %d\r\n" [s.startPosition],
       Event.uartPrintf "Dave, I\x27m scared. Will I dream?\r\n" [],
       Event.gpioWrite LED_PORT1 (LED1_PIN ||| LED2_PIN) 0,
       Event.gpioWrite LED_PORT2 (LED3_PIN ||| LED4_PIN) 0,
       Event.intMasterDisable] := rfl
  refine ⟨rfl, ?_, rfl, rfl, ?_, hev, Menu_quit_mono, SysTick_quit_eq,
    ConsoleIntHandler_quit_mono⟩
  · intro n
    exact mainLoopRun_quit n _ rfl
  · rw [hev]
    simp [List.countP_cons, isShutdownPrint_pwm, isShutdownPrint_gpio,
      isShutdownPrint_imd, isShutdownPrint_start, isShutdownPrint_farewell]

/-- Witness for C8: the loop-exit and quit-preservation conjuncts
instantiated at the concrete test state. -/
theorem quit_shutdown_witness :
    mainLoopRun 3 (Menu 'Q' testState).1 = (Menu 'Q' testState).1 ∧
    (Menu 'w' { testState with quit := true }).1.quit = true :=
  ⟨(quit_shutdown testState).2.1 3,
   (quit_shutdown testState).2.2.2.2.2.2.1 'w' { testState with quit := true } rfl⟩
